import Mathlib

/-!
Verification of the markdown-to-PDF converter repository.

Part 1 models the Document Composition Engine described in the repository
specification. The engine's Python sources (FastAPI backend) are not part of
the checked-in tree, so these definitions are modelled from the specification
text (sections 3, 4, 6 and 7). Part 2 embeds the React frontend
(frontend/src/App.tsx), translated directly from the source.
-/

namespace MdPdf

/-- Structural test that one character list starts with another. The library
string primitives recurse on byte positions, which the kernel cannot reduce,
so the embedding uses list-structural equivalents throughout. -/
def listStartsWith : List Char → List Char → Bool
  | _, [] => true
  | [], _ :: _ => false
  | c :: cs, p :: ps => c = p && listStartsWith cs ps

/-- Structural equivalent of `String.startsWith`. -/
def strStartsWith (s pat : String) : Bool :=
  listStartsWith s.toList pat.toList

/-- Drop leading whitespace characters. -/
def dropLeadingWs : List Char → List Char
  | [] => []
  | c :: cs => if c.isWhitespace then dropLeadingWs cs else c :: cs

/-- Structural equivalent of `String.trim`: strip whitespace from both
ends. -/
def strTrim (s : String) : String :=
  String.mk (dropLeadingWs (dropLeadingWs s.toList.reverse).reverse)

/-- ASCII lower-casing of one character. -/
def charToLower (c : Char) : Char :=
  if 'A' ≤ c ∧ c ≤ 'Z' then Char.ofNat (c.toNat + 32) else c

/-- Structural equivalent of `String.toLower` for the ASCII kind tokens. -/
def strToLower (s : String) : String :=
  String.mk (s.toList.map charToLower)

/-- Structural split of a character list at newline characters. -/
def splitLinesAux : List Char → List Char → List String
  | acc, [] => [String.mk acc.reverse]
  | acc, c :: cs =>
    if c = '\n' then String.mk acc.reverse :: splitLinesAux [] cs
    else splitLinesAux (c :: acc) cs

/-- Structural equivalent of splitting a string on newline characters. -/
def splitLines (s : String) : List String :=
  splitLinesAux [] s.toList

/-- Modelled from the spec: the five recognized callout kinds (section 4.1);
the backend scanner source is missing from the tree. -/
inductive CalloutKind
  | note
  | tip
  | warning
  | caution
  | info
deriving DecidableEq, Repr

/-- Modelled from the spec: case-insensitive lookup of a callout kind token
(section 4.1, "kind is case-insensitive"). -/
def calloutKindOfString (s : String) : Option CalloutKind :=
  match strToLower s with
  | "note" => some CalloutKind.note
  | "tip" => some CalloutKind.tip
  | "warning" => some CalloutKind.warning
  | "caution" => some CalloutKind.caution
  | "info" => some CalloutKind.info
  | _ => none

/-- Modelled from the spec: the default label derived from a callout kind
(section 4.2). -/
def calloutDefaultLabel : CalloutKind → String
  | CalloutKind.note => "Note"
  | CalloutKind.tip => "Tip"
  | CalloutKind.warning => "Warning"
  | CalloutKind.caution => "Caution"
  | CalloutKind.info => "Info"

/-- Modelled from the spec: CSS class suffix for a callout kind. -/
def calloutKindName : CalloutKind → String
  | CalloutKind.note => "note"
  | CalloutKind.tip => "tip"
  | CalloutKind.warning => "warning"
  | CalloutKind.caution => "caution"
  | CalloutKind.info => "info"

/-- Modelled from the spec: page sizes of the configuration model
(section 3); the backend configuration source is missing from the tree. -/
inductive PageSize
  | a3
  | a4
  | a5
  | letter
  | legal
  | preview
deriving DecidableEq, Repr

/-- Modelled from the spec: page orientations (section 3). -/
inductive Orientation
  | portrait
  | landscape
deriving DecidableEq, Repr

/-- Modelled from the spec: title-page sub-fields (section 3). -/
structure TitlePage where
  title : String
  date : String
  name : String
deriving DecidableEq, Repr

/-- Modelled from the spec: the validated rendering configuration
(section 3). -/
structure RenderConfig where
  fontSizePx : Nat
  pageSize : PageSize
  orientation : Orientation
  customCss : Option String
  titlePage : Option TitlePage
deriving DecidableEq, Repr

/-- Modelled from the spec: a render request pairs the raw Markdown text with
a configuration (section 3). -/
structure RenderRequest where
  markdownText : String
  config : RenderConfig

/-- Modelled from the spec: the error taxonomy of section 7. -/
inductive EngineError
  | configurationError (msg : String)
  | directiveSyntaxError (lineIndex : Nat) (msg : String)
  | unknownCalloutKind (lineIndex : Nat) (kind : String)
deriving DecidableEq, Repr

/-- Modelled from the spec: segments produced by the directive scanner
(section 3). -/
inductive Segment
  | text (markdownSource : String)
  | pageBreak
  | callout (kind : CalloutKind) (title : Option String) (body : String)
  | image (altText : String) (url : String) (widthPercent : Option Nat)
deriving DecidableEq, Repr

/-- Opening brace character, written via its code point. -/
def lbrace : Char := Char.ofNat 123

/-- Closing brace character, written via its code point. -/
def rbrace : Char := Char.ofNat 125

/-- Take characters until the first occurrence of `stop`; return the prefix
and the remainder after `stop`, or `none` when `stop` never occurs. -/
def takeUntilChar (stop : Char) : List Char → Option (List Char × List Char)
  | [] => none
  | c :: cs =>
    if c = stop then some ([], cs)
    else
      match takeUntilChar stop cs with
      | none => none
      | some (a, b) => some (c :: a, b)

/-- Numeric value of a digit run. -/
def digitsToNat (ds : List Char) : Nat :=
  ds.foldl (fun n c => n * 10 + (c.toNat - 48)) 0

/-- Modelled from the spec: parse a width annotation of the shape
brace-width-equals-digits-percent-brace placed immediately after an image
token (section 4.1). Returns the percentage and the rest of the line. -/
def parseWidthSuffix (cs : List Char) : Option (Nat × List Char) :=
  match cs with
  | b :: 'w' :: 'i' :: 'd' :: 't' :: 'h' :: '=' :: rest =>
    if b = lbrace then
      let ds := rest.takeWhile Char.isDigit
      let rest2 := rest.drop ds.length
      if ds.isEmpty then none
      else
        match rest2 with
        | p :: r :: tail =>
          if p = '%' ∧ r = rbrace then some (digitsToNat ds, tail) else none
        | _ => none
    else none
  | _ => none

/-- Modelled from the spec: parse a width-annotated inline image token
`![alt](url)` immediately followed by a width annotation (section 4.1).
Returns alt text, url, percentage and the rest of the line. -/
def parseImageToken (cs : List Char) : Option (String × String × Nat × List Char) :=
  match cs with
  | '!' :: '[' :: rest =>
    match takeUntilChar ']' rest with
    | some (altCs, afterAlt) =>
      match afterAlt with
      | '(' :: rest2 =>
        match takeUntilChar ')' rest2 with
        | some (urlCs, afterUrl) =>
          match parseWidthSuffix afterUrl with
          | some (n, tail) => some (String.mk altCs, String.mk urlCs, n, tail)
          | none => none
        | none => none
      | _ => none
    | none => none
  | _ => none

/-- A piece of one scanned line: either a plain-text chunk or a
width-annotated image. -/
abbrev LinePart := String ⊕ (String × String × Nat)

/-- Close out a line scan: the unscanned remainder joins the pending chunk.
A line with no image parts always yields one text chunk (possibly empty);
around images, empty chunks are dropped. -/
def finishLine (acc : List Char) (parts : List LinePart) (cs : List Char) : List LinePart :=
  let chunk := String.mk (acc.reverse ++ cs)
  if parts.isEmpty then [Sum.inl chunk]
  else if chunk.isEmpty then parts
  else parts ++ [Sum.inl chunk]

/-- Modelled from the spec: split one non-directive line into text chunks and
width-annotated image tokens (section 4.1). A width percentage outside 1-100
is a directive syntax error (section 7). Fuel bounds the recursion by the
line length. -/
def scanLineChars (idx : Nat) : Nat → List Char → List LinePart → List Char →
    Except EngineError (List LinePart)
  | 0, acc, parts, cs => Except.ok (finishLine acc parts cs)
  | _ + 1, acc, parts, [] => Except.ok (finishLine acc parts [])
  | fuel + 1, acc, parts, c :: cs =>
    match parseImageToken (c :: cs) with
    | some (alt, url, n, tail) =>
      if 1 ≤ n ∧ n ≤ 100 then
        scanLineChars idx fuel []
          (parts ++ (if acc.isEmpty then [] else [Sum.inl (String.mk acc.reverse)])
            ++ [Sum.inr (alt, url, n)]) tail
      else Except.error (EngineError.directiveSyntaxError idx "image width annotation out of range")
    | none => scanLineChars idx fuel (c :: acc) parts cs

/-- Modelled from the spec: scan one plain line for width-annotated images
(section 4.1). -/
def scanLineImages (idx : Nat) (line : String) : Except EngineError (List LinePart) :=
  scanLineChars idx (line.toList.length + 1) [] [] line.toList

/-- Modelled from the spec: the scanner's line-by-line mode (section 9
recommends the explicit state machine Normal / InCodeFence / InCallout). -/
inductive ScanMode
  | normal
  | inFence
  | inCallout (kind : CalloutKind) (title : Option String) (revBody : List String)

/-- Append a line to the pending text accumulator, merging adjacent
non-directive lines into one segment (section 4.1). -/
def pushLine (pending : Option String) (line : String) : Option String :=
  match pending with
  | none => some line
  | some p => some (p ++ "\n" ++ line)

/-- Flush the pending text accumulator as a `Segment.text` onto the reversed
segment list. -/
def flushPending (pending : Option String) (acc : List Segment) : List Segment :=
  match pending with
  | none => acc
  | some p => Segment.text p :: acc

/-- Fold the parts of one scanned line into the pending accumulator and the
reversed segment list. -/
def processParts : Option String → List Segment → List LinePart →
    (Option String × List Segment)
  | pending, acc, [] => (pending, acc)
  | pending, acc, Sum.inl chunk :: rest => processParts (pushLine pending chunk) acc rest
  | pending, acc, Sum.inr (alt, url, n) :: rest =>
    processParts none (Segment.image alt url (some n) :: flushPending pending acc) rest

/-- Modelled from the spec: the directive scanner's main loop (section 4.1).
Recognizes page breaks, callout blocks and width-annotated images on line
boundaries, suspends directive recognition inside fenced code blocks, rejects
unknown callout kinds and unterminated callouts (section 7). -/
def scanLines : Nat → ScanMode → Option String → List Segment → List String →
    Except EngineError (List Segment)
  | idx, mode, pending, acc, [] =>
    match mode with
    | ScanMode.inCallout _ _ _ =>
      Except.error (EngineError.directiveSyntaxError idx "unterminated callout block")
    | _ => Except.ok (flushPending pending acc).reverse
  | idx, ScanMode.inFence, pending, acc, line :: rest =>
    scanLines (idx + 1)
      (if strStartsWith (strTrim line) "```" then ScanMode.normal else ScanMode.inFence)
      (pushLine pending line) acc rest
  | idx, ScanMode.inCallout k title revBody, pending, acc, line :: rest =>
    if strStartsWith (strTrim line) ":::" then
      scanLines (idx + 1) ScanMode.normal pending
        (Segment.callout k title (String.intercalate "\n" revBody.reverse) :: acc) rest
    else
      scanLines (idx + 1) (ScanMode.inCallout k title (line :: revBody)) pending acc rest
  | idx, ScanMode.normal, pending, acc, line :: rest =>
    let t := strTrim line
    if strStartsWith t "```" then
      scanLines (idx + 1) ScanMode.inFence (pushLine pending line) acc rest
    else if t = "[[PAGEBREAK]]" then
      scanLines (idx + 1) ScanMode.normal none (Segment.pageBreak :: flushPending pending acc) rest
    else if strStartsWith t ":::" then
      let afterChars := t.toList.drop 3
      let kindChars := afterChars.takeWhile (fun c => c ≠ ' ')
      let kindStr := String.mk kindChars
      let titleStr := strTrim (String.mk (afterChars.drop kindChars.length))
      match calloutKindOfString kindStr with
      | some k =>
        scanLines (idx + 1)
          (ScanMode.inCallout k (if titleStr = "" then none else some titleStr) [])
          none (flushPending pending acc) rest
      | none => Except.error (EngineError.unknownCalloutKind idx kindStr)
    else
      match scanLineImages idx line with
      | Except.error e => Except.error e
      | Except.ok parts =>
        let pa := processParts pending acc parts
        scanLines (idx + 1) ScanMode.normal pa.1 pa.2 rest

/-- Modelled from the spec: `scan(markdownText) -> ordered sequence of
Segment` (section 4.1). -/
def scan (text : String) : Except EngineError (List Segment) :=
  scanLines 0 ScanMode.normal none [] (splitLines text)

/-- Modelled from the spec: `transform(Segment, config) -> HTML fragment`
(section 4.2). The base Markdown renderer `br` is an injected capability
(section 9). Only the preview/production distinction of the configuration is
consumed here. -/
def transformSegment (br : String → String) (isPreview : Bool) : Segment → String
  | Segment.text s => br s
  | Segment.pageBreak =>
    if isPreview then "<hr class=\"preview-divider\" />"
    else "<div class=\"page-break\"></div>"
  | Segment.callout k title body =>
    let label := title.getD (calloutDefaultLabel k)
    "<div class=\"callout callout-" ++ calloutKindName k ++ "\"><div class=\"callout-title\">"
      ++ label ++ "</div><div class=\"callout-body\">" ++ br body ++ "</div></div>"
  | Segment.image alt url w =>
    match w with
    | some n =>
      "<img src=\"" ++ url ++ "\" alt=\"" ++ alt ++ "\" style=\"width:"
        ++ toString n ++ "%\" />"
    | none => "<img src=\"" ++ url ++ "\" alt=\"" ++ alt ++ "\" />"

/-- Modelled from the spec: CSS name of a physical page size (section 4.3). -/
def pageSizeName : PageSize → String
  | PageSize.a3 => "A3"
  | PageSize.a4 => "A4"
  | PageSize.a5 => "A5"
  | PageSize.letter => "Letter"
  | PageSize.legal => "Legal"
  | PageSize.preview => "preview"

/-- Modelled from the spec: CSS name of an orientation (section 4.3). -/
def orientationName : Orientation → String
  | Orientation.portrait => "portrait"
  | Orientation.landscape => "landscape"

/-- Modelled from the spec: page geometry CSS (section 4.3). Production mode
emits an at-page rule sized to the page size and orientation; preview mode
emits continuous-flow styling with no page boxes, ignoring orientation. -/
def geometryCss (ps : PageSize) (o : Orientation) : String :=
  match ps with
  | PageSize.preview => "body \x7b max-width: 52rem; margin: 0 auto; \x7d"
  | _ => "@page \x7b size: " ++ pageSizeName ps ++ " " ++ orientationName o ++ "; \x7d"

/-- Modelled from the spec: root typography CSS from the configured font size
(section 4.3). -/
def baseTypographyCss (fontSizePx : Nat) : String :=
  "html \x7b font-size: " ++ toString fontSizePx ++ "px; \x7d"

/-- Modelled from the spec: callout styling injected by the assembler
(section 4.3). -/
def calloutCss : String :=
  ".callout \x7b border-left: 4px solid; padding: 8px; \x7d"

/-- Modelled from the spec: page-break rules (sections 4.2 and 8). Production
mode emits the forced-break rule; preview mode emits only the divider rule
and zero forced-break rules. -/
def breakCss (isPreview : Bool) : String :=
  if isPreview then ".preview-divider \x7b border-top: 1px dashed; \x7d"
  else ".page-break \x7b page-break-before: always; \x7d"

/-- Modelled from the spec: the synthesized title page (section 4.3). Absent
title-page configuration contributes nothing; in production mode the block is
followed by a forced page break, in preview mode it flows continuously. -/
def titlePageHtml (tp : Option TitlePage) (isPreview : Bool) : String :=
  match tp with
  | none => ""
  | some t =>
    "<section class=\"title-page\"><h1>" ++ t.title ++ "</h1><p>" ++ t.date
      ++ "</p><p>" ++ t.name ++ "</p></section>"
      ++ (if isPreview then "" else "<div class=\"page-break\"></div>")

/-- Modelled from the spec: `assemble(fragments, config) -> ComposedDocument`
(section 4.3). Fragments are concatenated in scan order inside an HTML shell;
generated CSS precedes the user CSS so user overrides win by cascade order. -/
def assembleHtml (frags : List String) (c : RenderConfig) : String :=
  let isPreview := c.pageSize == PageSize.preview
  "<!DOCTYPE html><html><head><style>"
    ++ baseTypographyCss c.fontSizePx
    ++ geometryCss c.pageSize c.orientation
    ++ calloutCss
    ++ breakCss isPreview
    ++ (c.customCss.getD "")
    ++ "</style></head><body>"
    ++ titlePageHtml c.titlePage isPreview
    ++ String.join frags
    ++ "</body></html>"

/-- Modelled from the spec: configuration validation (section 4.4). The font
size is rejected outside 8-18 with a configuration error before any scanning;
page size and orientation are enumerations by construction, and
`pageSize = Preview` deliberately leaves `orientation` unvalidated and
ignored. -/
def validateConfig (c : RenderConfig) : Except EngineError Unit :=
  if c.fontSizePx < 8 ∨ 18 < c.fontSizePx then
    Except.error (EngineError.configurationError "fontSizePx out of range")
  else Except.ok ()

/-- Modelled from the spec: the full composition pipeline (section 2 data
flow): validate, scan, transform each segment, assemble. Every rejection is
returned as a typed error (section 7). -/
def compose (br : String → String) (text : String) (c : RenderConfig) :
    Except EngineError String :=
  match validateConfig c with
  | Except.error e => Except.error e
  | Except.ok _ =>
    match scan text with
    | Except.error e => Except.error e
    | Except.ok segs =>
      Except.ok (assembleHtml (segs.map (transformSegment br (c.pageSize == PageSize.preview))) c)

/-- Modelled from the spec: rendering a request (section 3): the transform is
a function of the request's two components only. -/
def renderDocument (br : String → String) (r : RenderRequest) : Except EngineError String :=
  compose br r.markdownText r.config

/-!
Part 2: embedding of the React frontend, frontend/src/App.tsx.
The component state, the request bodies built for the `/convert`, `/preview`
and `/upload-image` endpoints, and the user-event transitions are translated
directly from the source. Purely cosmetic state (theme, drag highlight) is
omitted; no claim mentions it.
-/

/-- App.tsx line 5: maximum accepted image size in megabytes. -/
def MAX_IMAGE_SIZE_MB : Nat := 10

/-- App.tsx line 6: maximum accepted image size in bytes. -/
def MAX_IMAGE_SIZE_BYTES : Nat := MAX_IMAGE_SIZE_MB * 1024 * 1024

/-- App.tsx line 7: the page-size value that activates continuous preview. -/
def PREVIEW_PAGE_SIZE : String := "preview"

/-- App.tsx lines 9-15: shape of a successful `/convert` response. -/
structure ConversionResult where
  success : Bool
  message : String
  file_id : String
  filename : String
  download_url : String
deriving DecidableEq, Repr

/-- App.tsx lines 18-43: the component state (useState hooks). -/
structure AppState where
  markdownContent : String
  filename : String
  cssStyles : String
  fontSize : Nat
  isLoading : Bool
  result : Option ConversionResult
  error : String
  previewHtml : String
  isPreviewLoading : Bool
  pageSize : String
  orientation : String
  includeTitlePage : Bool
  titleText : String
  titleDate : String
  titleName : String
deriving DecidableEq, Repr

/-- App.tsx lines 18-43: the initial values of every useState hook. -/
def initState : AppState :=
  { markdownContent := ""
    filename := ""
    cssStyles := ""
    fontSize := 13
    isLoading := false
    result := none
    error := ""
    previewHtml := ""
    isPreviewLoading := false
    pageSize := "A4"
    orientation := "portrait"
    includeTitlePage := false
    titleText := ""
    titleDate := ""
    titleName := "" }

/-- App.tsx line 37: `isPreviewMode = pageSize === PREVIEW_PAGE_SIZE`. -/
def isPreviewMode (s : AppState) : Bool :=
  s.pageSize == PREVIEW_PAGE_SIZE

/-- App.tsx lines 88-101: the form data appended for a `/convert` request.
JavaScript truthiness of the guards becomes nonemptiness (strings) and
nonzeroness (the font size). -/
def buildConvertForm (s : AppState) : List (String × String) :=
  [("markdown_content", s.markdownContent)]
    ++ (if s.cssStyles ≠ "" then [("css_styles", s.cssStyles)] else [])
    ++ (if s.fontSize ≠ 0 then [("font_size", toString s.fontSize)] else [])
    ++ (if s.pageSize ≠ "" then [("page_size", s.pageSize)] else [])
    ++ (if s.orientation ≠ "" then [("orientation", s.orientation)] else [])
    ++ (if s.includeTitlePage then
          ("title_page", "true")
            :: ((if s.titleText ≠ "" then [("title_text", s.titleText)] else [])
              ++ (if s.titleDate ≠ "" then [("title_date", s.titleDate)] else [])
              ++ (if s.titleName ≠ "" then [("title_name", s.titleName)] else []))
        else [])

/-- App.tsx lines 288-298: the form data appended for a `/preview` request;
identical to the convert form except that `css_styles` is never appended. -/
def buildPreviewForm (s : AppState) : List (String × String) :=
  [("markdown_content", s.markdownContent)]
    ++ (if s.fontSize ≠ 0 then [("font_size", toString s.fontSize)] else [])
    ++ (if s.pageSize ≠ "" then [("page_size", s.pageSize)] else [])
    ++ (if s.orientation ≠ "" then [("orientation", s.orientation)] else [])
    ++ (if s.includeTitlePage then
          ("title_page", "true")
            :: ((if s.titleText ≠ "" then [("title_text", s.titleText)] else [])
              ++ (if s.titleDate ≠ "" then [("title_date", s.titleDate)] else [])
              ++ (if s.titleName ≠ "" then [("title_name", s.titleName)] else []))
        else [])

/-- App.tsx lines 72-106: the synchronous part of `handleConvert`. Returns
the updated state and, when the guards pass, the form data of the issued
`/convert` request; `none` means no request is issued. -/
def handleConvert (s : AppState) : AppState × Option (List (String × String)) :=
  if strTrim s.markdownContent = "" then
    ({ s with error := "Please enter some Markdown content" }, none)
  else if s.pageSize = PREVIEW_PAGE_SIZE then
    ({ s with error := "PDF download is disabled in Preview Use mode" }, none)
  else
    ({ s with isLoading := true, error := "", result := none }, some (buildConvertForm s))

/-- App.tsx lines 256-257: the URL fetched by `downloadPDF`, or `none` when
it returns without fetching. -/
def downloadPDF (s : AppState) : Option String :=
  match s.result with
  | none => none
  | some r => if s.pageSize = PREVIEW_PAGE_SIZE then none else some r.download_url

/-- App.tsx line 548: the `disabled` expression of the Convert button. -/
def convertButtonDisabled (s : AppState) : Bool :=
  s.isLoading || strTrim s.markdownContent == "" || s.pageSize == PREVIEW_PAGE_SIZE

/-- App.tsx line 313: the dependency array of the live-preview effect. The
effect re-runs exactly when this tuple changes. -/
def previewDeps (s : AppState) : String × Nat × String × String :=
  (s.markdownContent, s.fontSize, s.pageSize, s.orientation)

/-- App.tsx lines 196-212: the size guard of `uploadAndInsertImage`. An
`Except.error` is thrown before any network request; `Except.ok` carries the
endpoint the upload request is issued to. -/
def uploadAndInsertImage (fileSize : Nat) : Except String String :=
  if fileSize = 0 then Except.error "Image file is empty"
  else if fileSize > MAX_IMAGE_SIZE_BYTES then
    Except.error ("Images larger than " ++ toString MAX_IMAGE_SIZE_MB ++ " MB are not supported")
  else Except.ok "/upload-image"

/-- App.tsx line 372-382: the options offered by the page-size select. -/
def pageSizeOptions : List String :=
  [PREVIEW_PAGE_SIZE, "A3", "A4", "A5", "Letter", "Legal"]

/-- The user-interface events that mutate the component state: input-control
changes (the range slider, selects, checkbox and text inputs, constrained to
the values those controls can emit) and the completion of a convert or
preview request. A convert resolution carries the response (`none` means the
fetch failed with the given message); a preview resolution carries the
response HTML (`none` means the fetch failed). -/
inductive Event
  | setMarkdown (v : String)
  | setCss (v : String)
  | setFontSize (n : Nat)
  | setPageSize (v : String)
  | setOrientation (v : String)
  | setIncludeTitlePage (b : Bool)
  | setTitleText (v : String)
  | setTitleDate (v : String)
  | setTitleName (v : String)
  | convertResolve (out : Option ConversionResult) (failMsg : String)
  | previewResolve (out : Option String)

/-- One state transition of the component. Control constraints come from the
source: the font-size slider has min 8, max 18, step 1 (lines 358-367); the
page-size select offers `pageSizeOptions` (lines 371-382) and entering
preview mode clears the stored result (lines 45-49); the orientation select
is disabled in preview mode (line 395); `convertResolve` follows
`handleConvert` (lines 72-120); `previewResolve` follows the live-preview
effect (lines 277-313), whose failure branch deliberately changes neither the
error message nor the shown preview. -/
def applyEvent (e : Event) (s : AppState) : AppState :=
  match e with
  | Event.setMarkdown v => { s with markdownContent := v }
  | Event.setCss v => { s with cssStyles := v }
  | Event.setFontSize n => if 8 ≤ n ∧ n ≤ 18 then { s with fontSize := n } else s
  | Event.setPageSize v =>
    if v ∈ pageSizeOptions then
      { s with pageSize := v
               result := if v = PREVIEW_PAGE_SIZE ∧ s.pageSize ≠ PREVIEW_PAGE_SIZE then none
                         else s.result }
    else s
  | Event.setOrientation v =>
    if (v = "portrait" ∨ v = "landscape") ∧ s.pageSize ≠ PREVIEW_PAGE_SIZE then
      { s with orientation := v }
    else s
  | Event.setIncludeTitlePage b => { s with includeTitlePage := b }
  | Event.setTitleText v => { s with titleText := v }
  | Event.setTitleDate v => { s with titleDate := v }
  | Event.setTitleName v => { s with titleName := v }
  | Event.convertResolve out failMsg =>
    match handleConvert s with
    | (s1, none) => s1
    | (s1, some _) =>
      match out with
      | some r => { s1 with isLoading := false, result := some r }
      | none => { s1 with isLoading := false, error := failMsg }
  | Event.previewResolve out =>
    if strTrim s.markdownContent = "" then { s with previewHtml := "" }
    else
      match out with
      | some html => { s with previewHtml := html, isPreviewLoading := false }
      | none => { s with isPreviewLoading := false }

/-- The states the component can reach from its initial state through user
events and request resolutions. -/
inductive Reachable : AppState → Prop
  | init : Reachable initState
  | step (e : Event) {s : AppState} : Reachable s → Reachable (applyEvent e s)

/-- The request field names the application layer may send to the engine
(specification section 6). -/
def allowedRequestKeys : List String :=
  ["markdown_content", "css_styles", "font_size", "page_size", "orientation",
   "title_page", "title_text", "title_date", "title_name"]

/-- First value bound to a key in a form-data list. -/
def formLookup (k : String) : List (String × String) → Option String
  | [] => none
  | (k1, v) :: rest => if k1 = k then some v else formLookup k rest

/-- A state whose editor holds some content; used to exercise the
live-preview effect on concrete input. -/
def titleDepsState : AppState :=
  { initState with markdownContent := "# Hello" }

/-!
Part 3: helper lemmas.
-/

/-- Explicit form of the `convertResolve` transition. -/
theorem applyEvent_convertResolve (out : Option ConversionResult) (msg : String) (s : AppState) :
    applyEvent (Event.convertResolve out msg) s =
      if strTrim s.markdownContent = "" then
        { s with error := "Please enter some Markdown content" }
      else if s.pageSize = PREVIEW_PAGE_SIZE then
        { s with error := "PDF download is disabled in Preview Use mode" }
      else
        match out with
        | some r => { s with isLoading := false, error := "", result := some r }
        | none => { s with isLoading := false, error := msg, result := none } := by
  by_cases h1 : strTrim s.markdownContent = ""
  · simp [applyEvent, handleConvert, h1]
  · by_cases h2 : s.pageSize = PREVIEW_PAGE_SIZE
    · simp [applyEvent, handleConvert, h1, h2]
    · cases out <;> simp [applyEvent, handleConvert, h1, h2]

/-- Membership in a conditionally present sublist yields the condition and
plain membership. -/
theorem mem_ite_nil {α : Type} {p : α} {c : Prop} [Decidable c] {l : List α}
    (h : p ∈ if c then l else []) : c ∧ p ∈ l := by
  split at h
  · next hc => exact ⟨hc, h⟩
  · simp at h

/-- Every entry of the convert form is one of the nine boundary fields, the
title entries occurring only when the title page is enabled. -/
theorem mem_buildConvertForm (s : AppState) {p : String × String}
    (hp : p ∈ buildConvertForm s) :
    p = ("markdown_content", s.markdownContent) ∨ p = ("css_styles", s.cssStyles) ∨
      p = ("font_size", toString s.fontSize) ∨ p = ("page_size", s.pageSize) ∨
      p = ("orientation", s.orientation) ∨
      (s.includeTitlePage = true ∧
        (p = ("title_page", "true") ∨ p = ("title_text", s.titleText) ∨
          p = ("title_date", s.titleDate) ∨ p = ("title_name", s.titleName))) := by
  unfold buildConvertForm at hp
  simp only [List.mem_append] at hp
  rcases hp with ((((hp | hp) | hp) | hp) | hp) | hp
  · simp at hp; tauto
  · obtain ⟨-, hp⟩ := mem_ite_nil hp; simp at hp; tauto
  · obtain ⟨-, hp⟩ := mem_ite_nil hp; simp at hp; tauto
  · obtain ⟨-, hp⟩ := mem_ite_nil hp; simp at hp; tauto
  · obtain ⟨-, hp⟩ := mem_ite_nil hp; simp at hp; tauto
  · obtain ⟨hc, hp⟩ := mem_ite_nil hp
    rcases List.mem_cons.mp hp with hp | hp
    · exact Or.inr (Or.inr (Or.inr (Or.inr (Or.inr ⟨hc, Or.inl hp⟩))))
    · simp only [List.mem_append] at hp
      rcases hp with (hp | hp) | hp <;> obtain ⟨-, hp⟩ := mem_ite_nil hp <;>
        simp at hp <;> tauto

/-- Every entry of the preview form is one of the boundary fields other than
`css_styles`, the title entries occurring only when the title page is
enabled. -/
theorem mem_buildPreviewForm (s : AppState) {p : String × String}
    (hp : p ∈ buildPreviewForm s) :
    p = ("markdown_content", s.markdownContent) ∨
      p = ("font_size", toString s.fontSize) ∨ p = ("page_size", s.pageSize) ∨
      p = ("orientation", s.orientation) ∨
      (s.includeTitlePage = true ∧
        (p = ("title_page", "true") ∨ p = ("title_text", s.titleText) ∨
          p = ("title_date", s.titleDate) ∨ p = ("title_name", s.titleName))) := by
  unfold buildPreviewForm at hp
  simp only [List.mem_append] at hp
  rcases hp with (((hp | hp) | hp) | hp) | hp
  · simp at hp; tauto
  · obtain ⟨-, hp⟩ := mem_ite_nil hp; simp at hp; tauto
  · obtain ⟨-, hp⟩ := mem_ite_nil hp; simp at hp; tauto
  · obtain ⟨-, hp⟩ := mem_ite_nil hp; simp at hp; tauto
  · obtain ⟨hc, hp⟩ := mem_ite_nil hp
    rcases List.mem_cons.mp hp with hp | hp
    · exact Or.inr (Or.inr (Or.inr (Or.inr ⟨hc, Or.inl hp⟩)))
    · simp only [List.mem_append] at hp
      rcases hp with (hp | hp) | hp <;> obtain ⟨-, hp⟩ := mem_ite_nil hp <;>
        simp at hp <;> tauto

/-- In every reachable state, preview mode implies no stored conversion
result: entering preview mode clears it and `handleConvert` never stores one
while preview mode is active. -/
theorem reachable_preview_result_none (s : AppState) (hr : Reachable s) :
    s.pageSize = PREVIEW_PAGE_SIZE → s.result = none := by
  induction hr with
  | init => intro h; simp [initState, PREVIEW_PAGE_SIZE] at h
  | step e h ih =>
    rename_i s0
    cases e with
    | setMarkdown v => simpa [applyEvent] using ih
    | setCss v => simpa [applyEvent] using ih
    | setFontSize n => simp only [applyEvent]; split <;> simpa using ih
    | setPageSize v =>
      simp only [applyEvent]
      split
      · intro hp
        simp only at hp
        by_cases hold : s0.pageSize = PREVIEW_PAGE_SIZE
        · simp [hp, hold, ih hold]
        · simp [hp, hold]
      · exact ih
    | setOrientation v => simp only [applyEvent]; split <;> simpa using ih
    | setIncludeTitlePage b => simpa [applyEvent] using ih
    | setTitleText v => simpa [applyEvent] using ih
    | setTitleDate v => simpa [applyEvent] using ih
    | setTitleName v => simpa [applyEvent] using ih
    | convertResolve out msg =>
      rw [applyEvent_convertResolve]
      split_ifs with h1 h2
      · simpa using ih
      · simpa using ih
      · cases out with
        | some r => intro hp; simp only at hp; exact absurd hp h2
        | none => intro hp; rfl
    | previewResolve out =>
      simp only [applyEvent]
      split
      · simpa using ih
      · cases out <;> simpa using ih

/-!
Part 4: the claims.
-/

/-- C1: rendering is a pure function of the pair (markdownText, config) —
two requests with identical components yield identical output through any
injected base renderer; the embedding threads no state, so equal inputs give
byte-identical HTML. -/
theorem render_deterministic (br : String → String) (r1 r2 : RenderRequest)
    (ht : r1.markdownText = r2.markdownText) (hc : r1.config = r2.config) :
    renderDocument br r1 = renderDocument br r2 := by
  obtain ⟨t1, c1⟩ := r1
  obtain ⟨t2, c2⟩ := r2
  simp only at ht hc
  subst ht; subst hc; rfl

/-- Witness for C1 at a concrete request. -/
theorem render_deterministic_witness :
    renderDocument (fun s => s) ⟨"# Title", ⟨13, PageSize.a4, Orientation.portrait, none, none⟩⟩
      = renderDocument (fun s => s)
        ⟨"# Title", ⟨13, PageSize.a4, Orientation.portrait, none, none⟩⟩ :=
  render_deterministic (fun s => s) _ _ rfl rfl

/-- C2: every convert and preview request carries `markdown_content`, every
field it carries is one of the boundary names `markdown_content`,
`css_styles`, `font_size`, `page_size`, `orientation`, `title_page`,
`title_text`, `title_date`, `title_name`, and the title fields are sent
exactly when the title page is enabled. -/
theorem convert_request_field_names (s : AppState) :
    ("markdown_content", s.markdownContent) ∈ buildConvertForm s ∧
      (∀ p ∈ buildConvertForm s, p.1 ∈ allowedRequestKeys) ∧
      ("markdown_content", s.markdownContent) ∈ buildPreviewForm s ∧
      (∀ p ∈ buildPreviewForm s, p.1 ∈ allowedRequestKeys) ∧
      (s.includeTitlePage = false →
        ∀ p ∈ buildConvertForm s,
          p.1 ≠ "title_page" ∧ p.1 ≠ "title_text" ∧ p.1 ≠ "title_date" ∧
            p.1 ≠ "title_name") ∧
      (s.includeTitlePage = true → ("title_page", "true") ∈ buildConvertForm s) := by
  refine ⟨?_, ?_, ?_, ?_, ?_, ?_⟩
  · simp [buildConvertForm]
  · intro p hp
    rcases mem_buildConvertForm s hp with h | h | h | h | h | ⟨-, h | h | h | h⟩ <;>
      subst h <;> simp [allowedRequestKeys]
  · simp [buildPreviewForm]
  · intro p hp
    rcases mem_buildPreviewForm s hp with h | h | h | h | ⟨-, h | h | h | h⟩ <;>
      subst h <;> simp [allowedRequestKeys]
  · intro hflag p hp
    rcases mem_buildConvertForm s hp with h | h | h | h | h | ⟨hc, -⟩
    · subst h; simp
    · subst h; simp
    · subst h; simp
    · subst h; simp
    · subst h; simp
    · rw [hflag] at hc; exact absurd hc (by simp)
  · intro hflag
    simp [buildConvertForm, hflag]

/-- Witness for C2 at concrete states. -/
theorem convert_request_field_names_witness :
    ("markdown_content", "") ∈ buildConvertForm initState ∧
      ("title_page", "true") ∈ buildConvertForm { initState with includeTitlePage := true } :=
  ⟨(convert_request_field_names initState).1,
    (convert_request_field_names { initState with includeTitlePage := true }).2.2.2.2.2 rfl⟩

/-- C3: the page size starts at `A4` and, in every reachable state, is one of
the six values offered by the select: `preview`, `A3`, `A4`, `A5`, `Letter`,
`Legal`. -/
theorem page_size_enum_invariant :
    initState.pageSize = "A4" ∧
      ∀ s : AppState, Reachable s → s.pageSize ∈ pageSizeOptions := by
  refine ⟨rfl, fun s h => ?_⟩
  induction h with
  | init => simp [initState, pageSizeOptions]
  | step e h ih =>
    cases e with
    | setMarkdown v => simpa [applyEvent] using ih
    | setCss v => simpa [applyEvent] using ih
    | setFontSize n => simp only [applyEvent]; split <;> simpa using ih
    | setPageSize v =>
      simp only [applyEvent]
      split
      · next hv => simpa using hv
      · exact ih
    | setOrientation v => simp only [applyEvent]; split <;> simpa using ih
    | setIncludeTitlePage b => simpa [applyEvent] using ih
    | setTitleText v => simpa [applyEvent] using ih
    | setTitleDate v => simpa [applyEvent] using ih
    | setTitleName v => simpa [applyEvent] using ih
    | convertResolve out msg =>
      rw [applyEvent_convertResolve]
      split_ifs <;> first
        | simpa using ih
        | (cases out <;> simpa using ih)
    | previewResolve out =>
      simp only [applyEvent]
      split
      · simpa using ih
      · cases out <;> simpa using ih

/-- Witness for C3 at the initial state. -/
theorem page_size_enum_invariant_witness : initState.pageSize ∈ pageSizeOptions :=
  page_size_enum_invariant.2 initState Reachable.init

/-- C4: in every reachable state the font size the slider can produce is an
integer in [8, 18], and the engine's configuration validation rejects any
font size outside [8, 18] before the pipeline runs while accepting every
value inside it. -/
theorem font_size_range_invariant :
    (∀ s : AppState, Reachable s → 8 ≤ s.fontSize ∧ s.fontSize ≤ 18) ∧
      (∀ c : RenderConfig, c.fontSizePx < 8 ∨ 18 < c.fontSizePx →
        validateConfig c = Except.error (EngineError.configurationError "fontSizePx out of range")) ∧
      (∀ c : RenderConfig, 8 ≤ c.fontSizePx ∧ c.fontSizePx ≤ 18 →
        validateConfig c = Except.ok ()) := by
  refine ⟨fun s h => ?_, fun c hc => ?_, fun c hc => ?_⟩
  · induction h with
    | init => simp [initState]
    | step e h ih =>
      cases e with
      | setMarkdown v => simpa [applyEvent] using ih
      | setCss v => simpa [applyEvent] using ih
      | setFontSize n =>
        simp only [applyEvent]
        split
        · next hn => simpa using hn
        · exact ih
      | setPageSize v => simp only [applyEvent]; split <;> simpa using ih
      | setOrientation v => simp only [applyEvent]; split <;> simpa using ih
      | setIncludeTitlePage b => simpa [applyEvent] using ih
      | setTitleText v => simpa [applyEvent] using ih
      | setTitleDate v => simpa [applyEvent] using ih
      | setTitleName v => simpa [applyEvent] using ih
      | convertResolve out msg =>
        rw [applyEvent_convertResolve]
        split_ifs <;> first
          | simpa using ih
          | (cases out <;> simpa using ih)
      | previewResolve out =>
        simp only [applyEvent]
        split
        · simpa using ih
        · cases out <;> simpa using ih
  · simp only [validateConfig]
    rw [if_pos hc]
  · simp only [validateConfig]
    rw [if_neg (by omega)]

/-- Witness for C4: the initial state and a rejected configuration. -/
theorem font_size_range_invariant_witness :
    (8 ≤ initState.fontSize ∧ initState.fontSize ≤ 18) ∧
      validateConfig ⟨5, PageSize.a4, Orientation.portrait, none, none⟩
        = Except.error (EngineError.configurationError "fontSizePx out of range") :=
  ⟨font_size_range_invariant.1 initState Reachable.init,
    font_size_range_invariant.2.1 ⟨5, PageSize.a4, Orientation.portrait, none, none⟩
      (Or.inl (by decide))⟩

/-- C5: with page size `Preview` the orientation has no effect on the
composed output — either orientation value yields the identical result,
error or success — and in the user interface the orientation select is
disabled in preview mode, so the event leaves the state unchanged. -/
theorem preview_orientation_inert :
    (∀ (br : String → String) (t : String) (c : RenderConfig) (o1 o2 : Orientation),
        compose br t { c with pageSize := PageSize.preview, orientation := o1 }
          = compose br t { c with pageSize := PageSize.preview, orientation := o2 }) ∧
      (∀ (v : String) (s : AppState), isPreviewMode s = true →
        applyEvent (Event.setOrientation v) s = s) := by
  constructor
  · intro br t c o1 o2
    obtain ⟨f, ps, o, cc, tp⟩ := c
    by_cases hf : f < 8 ∨ 18 < f
    · simp [compose, validateConfig, hf]
    · simp only [compose, validateConfig, if_neg hf]
      cases hscan : scan t with
      | error e => rfl
      | ok segs => simp [assembleHtml, geometryCss]
  · intro v s h
    have hps : s.pageSize = PREVIEW_PAGE_SIZE := by
      simpa [isPreviewMode] using h
    simp [applyEvent, hps]

/-- Witness for C5: concrete render and a concrete inert event. -/
theorem preview_orientation_inert_witness :
    compose (fun s => s) "x" ⟨13, PageSize.preview, Orientation.portrait, none, none⟩
        = compose (fun s => s) "x" ⟨13, PageSize.preview, Orientation.landscape, none, none⟩ ∧
      applyEvent (Event.setOrientation "landscape") { initState with pageSize := "preview" }
        = { initState with pageSize := "preview" } :=
  ⟨preview_orientation_inert.1 (fun s => s) "x"
      ⟨13, PageSize.preview, Orientation.portrait, none, none⟩
      Orientation.portrait Orientation.landscape,
    preview_orientation_inert.2 "landscape" _ (by decide)⟩

set_option maxHeartbeats 1000000 in
/-- C6: the title page is all-or-nothing — with the flag off the request
carries none of the four title fields and the assembler synthesizes no
title-page block; with the flag on the effective value of each sub-field,
read off the request with empty-string default, is exactly the state's
value, which starts as the empty string. -/
theorem title_page_all_or_nothing (s : AppState) :
    (s.includeTitlePage = false →
      (∀ p ∈ buildConvertForm s,
        p.1 ≠ "title_page" ∧ p.1 ≠ "title_text" ∧ p.1 ≠ "title_date" ∧
          p.1 ≠ "title_name") ∧
      ∀ m : Bool, titlePageHtml none m = "") ∧
    (s.includeTitlePage = true →
      ("title_page", "true") ∈ buildConvertForm s ∧
      (formLookup "title_text" (buildConvertForm s)).getD "" = s.titleText ∧
      (formLookup "title_date" (buildConvertForm s)).getD "" = s.titleDate ∧
      (formLookup "title_name" (buildConvertForm s)).getD "" = s.titleName) ∧
    initState.titleText = "" ∧ initState.titleDate = "" ∧ initState.titleName = "" := by
  refine ⟨fun hflag => ⟨?_, fun m => rfl⟩, fun hflag => ⟨?_, ?_, ?_, ?_⟩, rfl, rfl, rfl⟩
  · intro p hp
    rcases mem_buildConvertForm s hp with h | h | h | h | h | ⟨hc, -⟩
    · subst h; simp
    · subst h; simp
    · subst h; simp
    · subst h; simp
    · subst h; simp
    · rw [hflag] at hc; exact absurd hc (by simp)
  · simp [buildConvertForm, hflag]
  · unfold buildConvertForm
    rw [hflag]
    split_ifs <;> simp [formLookup] <;> simp_all
  · unfold buildConvertForm
    rw [hflag]
    split_ifs <;> simp [formLookup] <;> simp_all
  · unfold buildConvertForm
    rw [hflag]
    split_ifs <;> simp [formLookup] <;> simp_all

/-- Witness for C6 at concrete states. -/
theorem title_page_all_or_nothing_witness :
    (∀ m : Bool, titlePageHtml none m = "") ∧
      (formLookup "title_text"
          (buildConvertForm { initState with includeTitlePage := true })).getD ""
        = "" :=
  ⟨((title_page_all_or_nothing initState).1 rfl).2,
    ((title_page_all_or_nothing { initState with includeTitlePage := true }).2.1 rfl).2.1⟩

/-- C7: the live-preview effect's dependency tuple is unchanged by enabling
the title page, while the preview request body it would send does change —
so a title-page edit alone never re-runs the effect and the shown preview
does not reflect the new title-page values (code bug; the specification's
WYSIWYG intent requires the refresh). -/
theorem preview_effect_misses_title_deps :
    previewDeps titleDepsState = previewDeps { titleDepsState with includeTitlePage := true } ∧
      buildPreviewForm titleDepsState
        ≠ buildPreviewForm { titleDepsState with includeTitlePage := true } :=
  ⟨rfl, by decide⟩

/-- C8: the engine surfaces every rejection as a typed error — a
configuration error or a scanner error is returned to the caller unchanged —
while the preview-refresh UI's failure branch changes neither the error
message nor the previously shown preview HTML. -/
theorem errors_surface_and_preview_swallows :
    (∀ (br : String → String) (t : String) (c : RenderConfig) (e : EngineError),
        validateConfig c = Except.error e → compose br t c = Except.error e) ∧
      (∀ (br : String → String) (t : String) (c : RenderConfig) (e : EngineError),
        validateConfig c = Except.ok () → scan t = Except.error e →
          compose br t c = Except.error e) ∧
      (∀ s : AppState, strTrim s.markdownContent ≠ "" →
        (applyEvent (Event.previewResolve none) s).error = s.error ∧
        (applyEvent (Event.previewResolve none) s).previewHtml = s.previewHtml) := by
  refine ⟨fun br t c e h => ?_, fun br t c e hv hs => ?_, fun s h => ?_⟩
  · simp [compose, h]
  · simp [compose, hv, hs]
  · simp [applyEvent, h]

/-- Witness for C8: a rejected configuration, a rejected scan, and a failed
preview refresh leaving the error untouched. -/
theorem errors_surface_and_preview_swallows_witness :
    compose (fun s => s) "x" ⟨5, PageSize.a4, Orientation.portrait, none, none⟩
        = Except.error (EngineError.configurationError "fontSizePx out of range") ∧
      compose (fun s => s) ":::note\nhello" ⟨13, PageSize.a4, Orientation.portrait, none, none⟩
        = Except.error (EngineError.directiveSyntaxError 2 "unterminated callout block") ∧
      (applyEvent (Event.previewResolve none) titleDepsState).error = titleDepsState.error :=
  ⟨errors_surface_and_preview_swallows.1 (fun s => s) "x" _ _ rfl,
    errors_surface_and_preview_swallows.2.1 (fun s => s) ":::note\nhello" _ _ rfl (by rfl),
    (errors_surface_and_preview_swallows.2.2 titleDepsState (by decide)).1⟩

/-- C9: in every reachable preview-mode state, `handleConvert` sets an error
message and issues no `/convert` request, `downloadPDF` fetches nothing, the
Convert button is disabled, and no conversion result is stored. -/
theorem preview_mode_blocks_conversion (s : AppState) (hr : Reachable s)
    (hp : isPreviewMode s = true) :
    (handleConvert s).2 = none ∧ (handleConvert s).1.error ≠ "" ∧
      downloadPDF s = none ∧ convertButtonDisabled s = true ∧ s.result = none := by
  have hps : s.pageSize = PREVIEW_PAGE_SIZE := by
    simpa [isPreviewMode] using hp
  refine ⟨?_, ?_, ?_, ?_, reachable_preview_result_none s hr hps⟩
  · by_cases h1 : strTrim s.markdownContent = "" <;> simp [handleConvert, h1, hps]
  · by_cases h1 : strTrim s.markdownContent = "" <;> simp [handleConvert, h1, hps]
  · cases hres : s.result <;> simp [downloadPDF, hres, hps]
  · simp [convertButtonDisabled, hps]

/-- Witness for C9 at the concrete state reached by selecting preview. -/
theorem preview_mode_blocks_conversion_witness :
    downloadPDF (applyEvent (Event.setPageSize "preview") initState) = none ∧
      convertButtonDisabled (applyEvent (Event.setPageSize "preview") initState) = true := by
  have h := preview_mode_blocks_conversion (applyEvent (Event.setPageSize "preview") initState)
    (Reachable.step _ Reachable.init) (by decide)
  exact ⟨h.2.2.1, h.2.2.2.1⟩

/-- C10: the upload guard accepts exactly the file sizes in (0, 10485760]
bytes — empty files and files above 10 MB are rejected with an error before
any request reaches the `/upload-image` endpoint. -/
theorem upload_image_size_guard :
    MAX_IMAGE_SIZE_BYTES = 10485760 ∧
      ∀ n : Nat, uploadAndInsertImage n = Except.ok "/upload-image" ↔
        0 < n ∧ n ≤ 10485760 := by
  refine ⟨rfl, fun n => ?_⟩
  unfold uploadAndInsertImage MAX_IMAGE_SIZE_BYTES MAX_IMAGE_SIZE_MB
  split_ifs with h1 h2 <;> simp <;> omega

/-- Witness for C10 at a concrete accepted size. -/
theorem upload_image_size_guard_witness :
    uploadAndInsertImage 1024 = Except.ok "/upload-image" :=
  (upload_image_size_guard.2 1024).mpr (by decide)

end MdPdf
